import Mathlib

/-!
Verification of the crypto screener's scoring core against its
natural-language specification.  The definitions below are shallow
embeddings of the repository's scoring functions: the divergence
classifier, the sector/tokenomics evaluators, the CSV series ingestor,
the trend analyzer and the omega-score assembly.  Numeric values are
modelled as rationals.
-/

namespace CryptoScreener

/-- Divergence labels produced by `classify_divergence`. -/
inductive DivergenceLabel where
  | bullish_divergence
  | bearish_divergence
  | confluence_bullish
  | confluence_bearish
  | neutral
deriving DecidableEq, Repr

/-- Embedding of `calculate_divergence_score(price_slope, cvd_slope, price_r, cvd_r)`:
confidence-weighted trends compared against the fixed thresholds
`strong_positive = 0.1`, `weak_positive = 0.02`, `weak_negative = -0.02`,
`strong_negative = -0.1`, evaluated as the source's if/elif chain. -/
def calculate_divergence_score (price_slope cvd_slope price_r cvd_r : ℚ) : ℕ :=
  let price_trend := price_slope * |price_r|
  let cvd_trend := cvd_slope * |cvd_r|
  let strong_positive : ℚ := 0.1
  let weak_positive : ℚ := 0.02
  let weak_negative : ℚ := -0.02
  let strong_negative : ℚ := -0.1
  if cvd_trend > strong_positive ∧ price_trend < weak_positive then 10
  else if cvd_trend > weak_positive ∧ price_trend < weak_negative then 9
  else if cvd_trend > strong_positive ∧ price_trend > weak_positive then 7
  else if cvd_trend > weak_positive ∧ price_trend > weak_positive then 6
  else if cvd_trend < weak_negative ∧ price_trend > strong_positive then 3
  else if cvd_trend < strong_negative then 2
  else 5

/-- Statement of the spec's §4.7 ordered rule table for the score, written
directly from the spec's words (first match wins, literal thresholds). -/
def divergenceScoreSpec (price_slope cvd_slope price_r cvd_r : ℚ) : ℕ :=
  let price_trend := price_slope * |price_r|
  let cvd_trend := cvd_slope * |cvd_r|
  if cvd_trend > 0.1 ∧ price_trend < 0.02 then 10
  else if cvd_trend > 0.02 ∧ price_trend < -0.02 then 9
  else if cvd_trend > 0.1 ∧ price_trend > 0.02 then 7
  else if cvd_trend > 0.02 ∧ price_trend > 0.02 then 6
  else if cvd_trend < -0.02 ∧ price_trend > 0.1 then 3
  else if cvd_trend < -0.1 then 2
  else 5

/-- Embedding of `classify_divergence(price_slope, cvd_slope)`: the label is
computed from the raw slopes only, independently of the score. -/
def classify_divergence (price_slope cvd_slope : ℚ) : DivergenceLabel :=
  if cvd_slope > 0 ∧ price_slope ≤ 0 then .bullish_divergence
  else if cvd_slope < 0 ∧ price_slope ≥ 0 then .bearish_divergence
  else if cvd_slope > 0 ∧ price_slope > 0 then .confluence_bullish
  else if cvd_slope < 0 ∧ price_slope < 0 then .confluence_bearish
  else .neutral

lemma pos_of_mul_abs_pos {a b : ℚ} (h : 0 < a * |b|) : 0 < a := by
  rcases mul_pos_iff.mp h with ⟨ha, _⟩ | ⟨_, hb⟩
  · exact ha
  · exact absurd hb (not_lt.mpr (abs_nonneg b))

lemma neg_of_mul_abs_neg {a b : ℚ} (h : a * |b| < 0) : a < 0 := by
  rcases mul_neg_iff.mp h with ⟨_, hb⟩ | ⟨ha, _⟩
  · exact absurd hb (not_lt.mpr (abs_nonneg b))
  · exact ha

lemma classify_eq_bullish {ps cs : ℚ} (hcs : 0 < cs) (hps : ps ≤ 0) :
    classify_divergence ps cs = .bullish_divergence := by
  unfold classify_divergence
  rw [if_pos ⟨hcs, hps⟩]

lemma classify_eq_confluence_bullish {ps cs : ℚ} (hcs : 0 < cs) (hps : 0 < ps) :
    classify_divergence ps cs = .confluence_bullish := by
  unfold classify_divergence
  rw [if_neg (by rintro ⟨_, h⟩; exact absurd hps (not_lt.mpr h)),
    if_neg (by rintro ⟨h, _⟩; exact absurd hcs (not_lt.mpr h.le)),
    if_pos ⟨hcs, hps⟩]

lemma classify_eq_bearish {ps cs : ℚ} (hcs : cs < 0) (hps : 0 ≤ ps) :
    classify_divergence ps cs = .bearish_divergence := by
  unfold classify_divergence
  rw [if_neg (by rintro ⟨h, _⟩; exact absurd hcs (not_lt.mpr h.le)),
    if_pos ⟨hcs, hps⟩]

/-- Claim C1: for every pair of OLS fit results, the DivergenceClassifier's
score equals the spec's ordered first-match rule table (thresholds 0.1/0.02,
overlapping bands resolved by evaluation order). -/
theorem divergence_score_matches_ordered_rules
    (price_slope cvd_slope price_r cvd_r : ℚ) :
    calculate_divergence_score price_slope cvd_slope price_r cvd_r =
      divergenceScoreSpec price_slope cvd_slope price_r cvd_r := rfl

/-- Claim C2, counterexample: at `price_slope = 1/100`, `cvd_slope = 1/5`,
`price_r = cvd_r = 1` the score is 10 but the reported label is
`confluence_bullish`, not `bullish_divergence` as the §4.7 table requires. -/
theorem divergence_label_table_counterexample :
    calculate_divergence_score (1/100) (1/5) 1 1 = 10 ∧
      classify_divergence (1/100) (1/5) = .confluence_bullish ∧
      classify_divergence (1/100) (1/5) ≠ .bullish_divergence := by
  have h2 : classify_divergence (1/100) (1/5) = .confluence_bullish := by
    norm_num [classify_divergence]
  exact ⟨by norm_num [calculate_divergence_score], h2, by rw [h2]; decide⟩

/-- Claim C2, amended: the label agrees with the §4.7 table for scores 9, 7,
6 and 3 unconditionally; for score 10 it is `bullish_divergence` only when
`price_slope ≤ 0`, and for score 2 it is `bearish_divergence` only when
`price_slope ≥ 0` (otherwise `confluence_bullish` resp. `confluence_bearish`
can be reported, and score 5 need not carry the `neutral` label). -/
theorem divergence_label_partial_agreement
    (price_slope cvd_slope price_r cvd_r : ℚ) :
    (calculate_divergence_score price_slope cvd_slope price_r cvd_r = 9 →
      classify_divergence price_slope cvd_slope = .bullish_divergence) ∧
    (calculate_divergence_score price_slope cvd_slope price_r cvd_r = 7 →
      classify_divergence price_slope cvd_slope = .confluence_bullish) ∧
    (calculate_divergence_score price_slope cvd_slope price_r cvd_r = 6 →
      classify_divergence price_slope cvd_slope = .confluence_bullish) ∧
    (calculate_divergence_score price_slope cvd_slope price_r cvd_r = 3 →
      classify_divergence price_slope cvd_slope = .bearish_divergence) ∧
    (calculate_divergence_score price_slope cvd_slope price_r cvd_r = 10 →
      price_slope ≤ 0 →
      classify_divergence price_slope cvd_slope = .bullish_divergence) ∧
    (calculate_divergence_score price_slope cvd_slope price_r cvd_r = 2 →
      0 ≤ price_slope →
      classify_divergence price_slope cvd_slope = .bearish_divergence) := by
  simp only [calculate_divergence_score]
  split_ifs with h1 h2 h3 h4 h5 h6 <;>
    refine ⟨fun hs => ?_, fun hs => ?_, fun hs => ?_, fun hs => ?_,
      fun hs hps => ?_, fun hs hps => ?_⟩ <;>
    first
    | exact absurd hs (by decide)
    | skip
  · exact classify_eq_bullish
      (pos_of_mul_abs_pos (lt_trans (by norm_num) h1.1)) hps
  · exact classify_eq_bullish
      (pos_of_mul_abs_pos (lt_trans (by norm_num) h2.1))
      (neg_of_mul_abs_neg (lt_trans h2.2 (by norm_num))).le
  · exact classify_eq_confluence_bullish
      (pos_of_mul_abs_pos (lt_trans (by norm_num) h3.1))
      (pos_of_mul_abs_pos (lt_trans (by norm_num) h3.2))
  · exact classify_eq_confluence_bullish
      (pos_of_mul_abs_pos (lt_trans (by norm_num) h4.1))
      (pos_of_mul_abs_pos (lt_trans (by norm_num) h4.2))
  · exact classify_eq_bearish
      (neg_of_mul_abs_neg (lt_trans h5.1 (by norm_num)))
      (pos_of_mul_abs_pos (lt_trans (by norm_num) h5.2)).le
  · exact classify_eq_bearish
      (neg_of_mul_abs_neg (lt_trans h6 (by norm_num))) hps

/-- Witness for the amended C2 theorem: at `price_slope = -1`, `cvd_slope = 1`
and both correlations 1 the score is 10, the slope is nonpositive, and the
theorem yields the `bullish_divergence` label. -/
theorem divergence_label_partial_agreement_witness :
    classify_divergence (-1) 1 = .bullish_divergence :=
  (divergence_label_partial_agreement (-1) 1 1 1).2.2.2.2.1
    (by norm_num [calculate_divergence_score]) (by norm_num)

/-- Normalization of a category label as in `calculate_sector_strength`:
lower-case the string and replace every space by a hyphen
(`category.lower().replace(' ', '-')`). -/
def normalize_category (c : String) : String :=
  String.mk (c.data.map (fun ch => if ch.toLower = ' ' then '-' else ch.toLower))

/-- Embedding of `calculate_sector_strength`: dictionary lookup over the
`hot_sectors` table in the source's key order, defaulting to 4. -/
def calculate_sector_strength (coingecko_category : String) : ℕ :=
  let category := normalize_category coingecko_category
  if category = "artificial-intelligence" then 9
  else if category = "ai" then 9
  else if category = "depin" then 9
  else if category = "real-world-assets" then 9
  else if category = "rwa" then 9
  else if category = "layer-1" then 7
  else if category = "layer-2" then 7
  else if category = "gaming" then 7
  else if category = "gamefi" then 7
  else if category = "infrastructure" then 7
  else if category = "blockchain-infrastructure" then 7
  else 4

/-- Pythonic truthiness of an optional number: `None` and `0` are falsy. -/
def truthyQ : Option ℚ → Bool
  | none => false
  | some x => x != 0

/-- Embedding of `calculate_valuation_potential`: ascending market-cap
buckets with exclusive upper bounds, first match wins. -/
def calculate_valuation_potential (market_cap_usd : ℚ) : ℕ :=
  if market_cap_usd < 20000000 then 10
  else if market_cap_usd < 50000000 then 9
  else if market_cap_usd < 100000000 then 8
  else if market_cap_usd < 200000000 then 7
  else if market_cap_usd < 500000000 then 5
  else if market_cap_usd < 1000000000 then 3
  else 1

/-- Embedding of the `process_coingecko_data` call-site guard for the
valuation sub-score: `if project['market_cap']:` computes the bucket score,
else (missing or falsy cap) assigns 1. -/
def valuation_from_market_cap (market_cap : Option ℚ) : ℕ :=
  if truthyQ market_cap then calculate_valuation_potential (market_cap.getD 0)
  else 1

/-- Embedding of `calculate_supply_risk`: `not total_supply or
total_supply <= 0` yields 1, else the circulation fraction
`circulating_supply / total_supply` is scored by inclusive lower bounds. -/
def calculate_supply_risk (circulating_supply : ℚ) (total_supply : Option ℚ) : ℕ :=
  match total_supply with
  | none => 1
  | some total =>
    if total ≤ 0 then 1
    else if circulating_supply / total ≥ 0.90 then 10
    else if circulating_supply / total ≥ 0.75 then 9
    else if circulating_supply / total ≥ 0.50 then 7
    else if circulating_supply / total ≥ 0.25 then 5
    else if circulating_supply / total ≥ 0.10 then 2
    else 1

/-- Claim C6, counterexample: the literal label "L1" normalizes to "l1",
which is not a key of the `hot_sectors` table, so the classifier returns the
default 4 — not the 7 the claim assigns to L1. -/
theorem sector_l1_counterexample :
    calculate_sector_strength "L1" = 4 ∧ (4 : ℕ) ≠ 7 := by
  exact ⟨by decide, by decide⟩

set_option maxHeartbeats 2000000 in
/-- Claim C6, amended: the SectorClassifier is total (every label scores 9,
7 or 4); after normalization the keys artificial-intelligence/ai/depin/
real-world-assets/rwa score 9 and layer-1/layer-2/gaming/gamefi/
infrastructure/blockchain-infrastructure score 7, so AI, DePIN, RWA map to
9 and GameFi, Infrastructure, "Layer 1", "Layer 2" map to 7, but the
literal labels "L1" and "L2" are not in the table and map to the default 4,
as does the empty label. -/
theorem sector_classifier_total_table :
    (∀ c : String, calculate_sector_strength c ∈ ([9, 7, 4] : List ℕ)) ∧
    calculate_sector_strength "AI" = 9 ∧
    calculate_sector_strength "ai" = 9 ∧
    calculate_sector_strength "DePIN" = 9 ∧
    calculate_sector_strength "RWA" = 9 ∧
    calculate_sector_strength "GameFi" = 7 ∧
    calculate_sector_strength "Infrastructure" = 7 ∧
    calculate_sector_strength "Layer 1" = 7 ∧
    calculate_sector_strength "Layer 2" = 7 ∧
    calculate_sector_strength "L1" = 4 ∧
    calculate_sector_strength "L2" = 4 ∧
    calculate_sector_strength "" = 4 := by
  refine ⟨fun c => ?_, by decide, by decide, by decide, by decide, by decide,
    by decide, by decide, by decide, by decide, by decide, by decide⟩
  simp only [calculate_sector_strength]
  split_ifs <;> decide

/-- Claim C7: the valuation evaluator returns 1 for a missing market cap and
otherwise buckets the cap with exclusive upper bounds: below 20M scores 10,
then 9/8/7/5/3 on the successive bands, and 1 from 1B upward; in particular
19,999,999 scores 10, 20,000,000 scores 9 and 1,000,000,000 scores 1. -/
theorem valuation_potential_buckets (c : ℚ) :
    valuation_from_market_cap none = 1 ∧
    (c < 20000000 → calculate_valuation_potential c = 10) ∧
    (20000000 ≤ c → c < 50000000 → calculate_valuation_potential c = 9) ∧
    (50000000 ≤ c → c < 100000000 → calculate_valuation_potential c = 8) ∧
    (100000000 ≤ c → c < 200000000 → calculate_valuation_potential c = 7) ∧
    (200000000 ≤ c → c < 500000000 → calculate_valuation_potential c = 5) ∧
    (500000000 ≤ c → c < 1000000000 → calculate_valuation_potential c = 3) ∧
    (1000000000 ≤ c → calculate_valuation_potential c = 1) ∧
    calculate_valuation_potential 19999999 = 10 ∧
    calculate_valuation_potential 20000000 = 9 ∧
    calculate_valuation_potential 1000000000 = 1 := by
  refine ⟨by norm_num [valuation_from_market_cap, truthyQ],
    ?_, ?_, ?_, ?_, ?_, ?_, ?_,
    by norm_num [calculate_valuation_potential],
    by norm_num [calculate_valuation_potential],
    by norm_num [calculate_valuation_potential]⟩ <;>
  · intros
    unfold calculate_valuation_potential
    split_ifs <;> first | rfl | linarith

/-- Witness for C7: a cap of 0 is below 20M, so the bucket function scores
it 10 (the pipeline's treatment of a zero cap is claim C10). -/
theorem valuation_potential_buckets_witness :
    calculate_valuation_potential 0 = 10 :=
  (valuation_potential_buckets 0).2.1 (by norm_num)

/-- Claim C8: supply risk is 1 when the total supply is missing or not
positive, and otherwise scores the circulation fraction by inclusive lower
bounds 0.90/0.75/0.50/0.25/0.10; in particular (95, 100) scores 10 and
(5, 100) scores 1. -/
theorem supply_risk_buckets (c t : ℚ) :
    calculate_supply_risk c none = 1 ∧
    (t ≤ 0 → calculate_supply_risk c (some t) = 1) ∧
    (0 < t → 0.90 ≤ c / t → calculate_supply_risk c (some t) = 10) ∧
    (0 < t → 0.75 ≤ c / t → c / t < 0.90 → calculate_supply_risk c (some t) = 9) ∧
    (0 < t → 0.50 ≤ c / t → c / t < 0.75 → calculate_supply_risk c (some t) = 7) ∧
    (0 < t → 0.25 ≤ c / t → c / t < 0.50 → calculate_supply_risk c (some t) = 5) ∧
    (0 < t → 0.10 ≤ c / t → c / t < 0.25 → calculate_supply_risk c (some t) = 2) ∧
    (0 < t → c / t < 0.10 → calculate_supply_risk c (some t) = 1) ∧
    calculate_supply_risk 95 (some 100) = 10 ∧
    calculate_supply_risk 5 (some 100) = 1 := by
  refine ⟨rfl, ?_, ?_, ?_, ?_, ?_, ?_, ?_,
    by norm_num [calculate_supply_risk],
    by norm_num [calculate_supply_risk]⟩ <;>
  · intros
    simp only [calculate_supply_risk]
    split_ifs <;> first | rfl | linarith

/-- Witness for C8: a fully circulating supply (100 of 100) has fraction 1
and scores 10. -/
theorem supply_risk_buckets_witness :
    calculate_supply_risk 100 (some 100) = 10 :=
  (supply_risk_buckets 100 100).2.2.1 (by norm_num) (by norm_num)

/-- Claim C10: in the ingestion pipeline a market cap of exactly 0 is falsy,
so the guard assigns valuation_potential 1, although the below-20M bucket of
the underlying function would assign 10 to a cap of 0. -/
theorem zero_market_cap_falsy_guard :
    valuation_from_market_cap (some 0) = 1 ∧
      calculate_valuation_potential 0 = 10 := by
  exact ⟨by norm_num [valuation_from_market_cap, truthyQ],
    by norm_num [calculate_valuation_potential]⟩

/-- The seven operator-supplied sub-scores of a manually entered project, as
read from the wizard form. -/
structure ManualProject where
  sector_strength : ℚ
  value_proposition : ℚ
  backing_team : ℚ
  valuation_potential : ℚ
  token_utility : ℚ
  supply_risk : ℚ
  accumulation_signal : ℚ

/-- The record returned by `calculateOmegaScore`. -/
structure ScoreRecord where
  narrative_score : ℚ
  tokenomics_score : ℚ
  data_score : ℚ
  omega_score : ℚ
deriving DecidableEq, Repr

/-- Model of JavaScript's `parseFloat(x.toFixed(2))` on a nonnegative value:
round to the nearest hundredth, ties toward the larger value. -/
def round2 (q : ℚ) : ℚ := ((⌊q * 100 + 1/2⌋ : ℤ) : ℚ) / 100

/-- Embedding of `calculateOmegaScore` from `app.js`: pillar means, the
weighted omega formula applied to the UNROUNDED means, and 2-decimal
rounding of the reported narrative, tokenomics and omega values. -/
def calculateOmegaScore (p : ManualProject) : ScoreRecord :=
  let narrativeScore :=
    (p.sector_strength + p.value_proposition + p.backing_team) / 3
  let tokenomicsScore :=
    (p.valuation_potential + p.token_utility + p.supply_risk) / 3
  let dataScore := p.accumulation_signal
  let omegaScore :=
    narrativeScore * 0.25 + tokenomicsScore * 0.25 + dataScore * 0.50
  { narrative_score := round2 narrativeScore
    tokenomics_score := round2 tokenomicsScore
    data_score := dataScore
    omega_score := round2 omegaScore }

/-- Claim C4, counterexample: with sub-scores (5,5,5) / (10,9,7) and data
score 5 the code reports narrative 5, tokenomics 8.67 and omega 5.92, but
the claim's formula narrative×0.25 + tokenomics×0.25 + data×0.50 over the
reported (rounded) pillar scores gives 5.9175 ≠ 5.92. -/
theorem omega_rounding_counterexample :
    (calculateOmegaScore ⟨5, 5, 5, 10, 9, 7, 5⟩).narrative_score = 5 ∧
    (calculateOmegaScore ⟨5, 5, 5, 10, 9, 7, 5⟩).tokenomics_score = 867/100 ∧
    (calculateOmegaScore ⟨5, 5, 5, 10, 9, 7, 5⟩).data_score = 5 ∧
    (calculateOmegaScore ⟨5, 5, 5, 10, 9, 7, 5⟩).omega_score = 148/25 ∧
    (calculateOmegaScore ⟨5, 5, 5, 10, 9, 7, 5⟩).omega_score ≠
      (calculateOmegaScore ⟨5, 5, 5, 10, 9, 7, 5⟩).narrative_score * 0.25 +
      (calculateOmegaScore ⟨5, 5, 5, 10, 9, 7, 5⟩).tokenomics_score * 0.25 +
      (calculateOmegaScore ⟨5, 5, 5, 10, 9, 7, 5⟩).data_score * 0.50 := by
  norm_num [calculateOmegaScore, round2]

/-- Claim C4, amended: narrative_score and tokenomics_score are the
arithmetic means of their three sub-scores rounded to 2 decimals (so
(9,7,8) gives 8.0 and (10,9,7) gives 8.67), but omega_score is the
2-decimal rounding of the weighted sum 0.25/0.25/0.50 taken over the
UNROUNDED pillar means, not over the rounded pillar scores. -/
theorem omega_score_unrounded_pillars (p : ManualProject) :
    (calculateOmegaScore p).narrative_score =
      round2 ((p.sector_strength + p.value_proposition + p.backing_team) / 3) ∧
    (calculateOmegaScore p).tokenomics_score =
      round2 ((p.valuation_potential + p.token_utility + p.supply_risk) / 3) ∧
    (calculateOmegaScore p).data_score = p.accumulation_signal ∧
    (calculateOmegaScore p).omega_score =
      round2 (((p.sector_strength + p.value_proposition + p.backing_team) / 3)
          * 0.25 +
        ((p.valuation_potential + p.token_utility + p.supply_risk) / 3)
          * 0.25 +
        p.accumulation_signal * 0.50) ∧
    (calculateOmegaScore ⟨9, 7, 8, 10, 9, 7, 8⟩).narrative_score = 8 ∧
    (calculateOmegaScore ⟨9, 7, 8, 10, 9, 7, 8⟩).tokenomics_score = 867/100 := by
  exact ⟨rfl, rfl, rfl, rfl, by norm_num [calculateOmegaScore, round2],
    by norm_num [calculateOmegaScore, round2]⟩

/-- Rejection kinds of `parse_and_validate_csv`. -/
inductive ValidationError where
  | MissingHeaders (missing : List String)
  | InsufficientPeriods (found : ℕ) (required : ℕ)
  | InvalidNumericData
deriving DecidableEq, Repr

/-- A raw data row after parsing: the close and volume-delta cells hold
`none` when the cell is not numeric (pandas `to_numeric(errors='coerce')`
turns such cells into NaN). -/
structure RawRow where
  close : Option ℚ
  volume_delta : Option ℚ

/-- A parsed submission: the header row and the data rows. -/
structure ParsedCSV where
  headers : List String
  rows : List RawRow

/-- The three required header names, matched verbatim. -/
def required_headers : List String := ["time", "close", "Volume Delta (Close)"]

/-- Column coercion: succeeds with the numeric (close, volume_delta) pairs
exactly when no cell of either column is non-numeric, mirroring the
`to_numeric` coercion followed by the `isna().any()` check. -/
def coerceRows : List RawRow → Option (List (ℚ × ℚ))
  | [] => some []
  | r :: rest =>
    match r.close, r.volume_delta with
    | some c, some v => (coerceRows rest).map (fun l => (c, v) :: l)
    | _, _ => none

/-- Embedding of `parse_and_validate_csv`: missing headers are collected in
table order and rejected first; then fewer than 90 data rows is rejected
with the found/required counts; then any non-numeric cell rejects the whole
submission; otherwise the validated rows are returned in order. -/
def parse_and_validate_csv (csv : ParsedCSV) :
    Except ValidationError (List (ℚ × ℚ)) :=
  let missing := required_headers.filter (fun h => !csv.headers.contains h)
  if !missing.isEmpty then .error (.MissingHeaders missing)
  else if csv.rows.length < 90 then
    .error (.InsufficientPeriods csv.rows.length 90)
  else
    match coerceRows csv.rows with
    | some rows => .ok rows
    | none => .error .InvalidNumericData

lemma coerceRows_eq_none {rows : List RawRow}
    (h : ∃ r ∈ rows, r.close = none ∨ r.volume_delta = none) :
    coerceRows rows = none := by
  induction rows with
  | nil => simp at h
  | cons r rest ih =>
    rcases h with ⟨r', hr', hbad⟩
    rcases List.mem_cons.mp hr' with rfl | hmem
    · rcases hbad with hc | hv
      · simp [coerceRows, hc]
      · rcases hr : r'.close with _ | c <;> simp [coerceRows, hr, hv]
    · have := ih ⟨r', hmem, hbad⟩
      unfold coerceRows
      rcases r.close with _ | c <;> rcases r.volume_delta with _ | v <;>
        simp [this]

/-- Claim C3: validation order and rejection kinds of the SeriesIngestor —
a missing required header is rejected with `MissingHeaders` naming exactly
the absent fields, regardless of row count; with all headers present, fewer
than 90 rows is rejected with `InsufficientPeriods found 90`; with headers
and 90+ rows, any non-numeric close or volume-delta cell rejects the whole
submission with `InvalidNumericData`; every rejection yields no validated
output (hence no score). -/
theorem series_ingestor_validation_order (csv : ParsedCSV) :
    ((∃ h ∈ required_headers, h ∉ csv.headers) →
      ∃ missing, missing ≠ [] ∧
        parse_and_validate_csv csv = .error (.MissingHeaders missing) ∧
        ∀ h, h ∈ missing ↔ (h ∈ required_headers ∧ h ∉ csv.headers)) ∧
    ((∀ h ∈ required_headers, h ∈ csv.headers) → csv.rows.length < 90 →
      parse_and_validate_csv csv =
        .error (.InsufficientPeriods csv.rows.length 90)) ∧
    ((∀ h ∈ required_headers, h ∈ csv.headers) → 90 ≤ csv.rows.length →
      (∃ r ∈ csv.rows, r.close = none ∨ r.volume_delta = none) →
      parse_and_validate_csv csv = .error .InvalidNumericData) ∧
    (∀ e out, parse_and_validate_csv csv = .error e →
      parse_and_validate_csv csv ≠ .ok out) := by
  refine ⟨fun hex => ?_, fun hall hlt => ?_, fun hall hge hbad => ?_,
    fun e out he hok => ?_⟩
  · refine ⟨required_headers.filter (fun h => !csv.headers.contains h),
      ?_, ?_, fun h => ?_⟩
    · rcases hex with ⟨h0, hmem, habs⟩
      exact List.ne_nil_of_mem (List.mem_filter.mpr ⟨hmem, by simpa using habs⟩)
    · rcases hex with ⟨h0, hmem, habs⟩
      have hnil : required_headers.filter
          (fun h => !csv.headers.contains h) ≠ [] :=
        List.ne_nil_of_mem (List.mem_filter.mpr ⟨hmem, by simpa using habs⟩)
      have hcond : (!(required_headers.filter
          (fun h => !csv.headers.contains h)).isEmpty) = true := by
        cases hq : (required_headers.filter
            (fun h => !csv.headers.contains h)).isEmpty with
        | false => rfl
        | true => exact absurd (List.isEmpty_iff.mp hq) hnil
      simp only [parse_and_validate_csv]
      rw [if_pos hcond]
    · simp [List.mem_filter]
  · have hm : required_headers.filter (fun h => !csv.headers.contains h) = [] :=
      List.filter_eq_nil_iff.mpr (fun a ha => by simpa using hall a ha)
    simp only [parse_and_validate_csv, hm, List.isEmpty_nil, Bool.not_true]
    rw [if_neg (by simp), if_pos hlt]
  · have hm : required_headers.filter (fun h => !csv.headers.contains h) = [] :=
      List.filter_eq_nil_iff.mpr (fun a ha => by simpa using hall a ha)
    simp only [parse_and_validate_csv, hm, List.isEmpty_nil, Bool.not_true]
    rw [if_neg (by simp), if_neg (Nat.not_lt.mpr hge), coerceRows_eq_none hbad]
  · rw [he] at hok
    exact Except.noConfusion hok

/-- Witness for C3: a submission with the correct headers and zero data
rows is rejected with `InsufficientPeriods 0 90`. -/
theorem series_ingestor_validation_order_witness :
    parse_and_validate_csv ⟨["time", "close", "Volume Delta (Close)"], []⟩ =
      .error (.InsufficientPeriods 0 90) :=
  (series_ingestor_validation_order
    ⟨["time", "close", "Volume Delta (Close)"], []⟩).2.1
    (by decide) (by decide)

/-- Embedding of `df.tail(90)`: the most recent 90 rows of the validated
series, preserving order (the whole list when it is shorter than 90). -/
def tail90 (rows : List (ℚ × ℚ)) : List (ℚ × ℚ) :=
  rows.drop (rows.length - 90)

/-- Running cumulative sum with accumulator, mirroring `cumsum`. -/
def cumsumGo : ℚ → List ℚ → List ℚ
  | _, [] => []
  | acc, x :: xs => (acc + x) :: cumsumGo (acc + x) xs

/-- Embedding of `Series.cumsum()`: entry `i` sums the first `i + 1`
inputs. -/
def cumsum (xs : List ℚ) : List ℚ := cumsumGo 0 xs

/-- Ordinary-least-squares slope of the values `ys` against their
sequential positions `0, 1, ...`, as computed by `scipy.stats.linregress`
(the quotient form; a degenerate denominator yields 0 in `ℚ`). -/
def olsSlope (ys : List ℚ) : ℚ :=
  let n : ℚ := ys.length
  let xs := (List.range ys.length).map (fun i => (i : ℚ))
  let sx := xs.sum
  let sy := ys.sum
  let sxy := ((xs.zip ys).map (fun p => p.1 * p.2)).sum
  let sxx := (xs.map (fun x => x * x)).sum
  (n * sxy - sx * sy) / (n * sxx - sx * sx)

/-- The deterministic part of the analysis record built by
`calculate_accumulation_signal`: the tail window, the cvd series, the two
OLS slopes, the divergence label and the period count.  (The correlation
coefficients, which involve a square root, enter only the score, and the
score/label classifiers are embedded separately at the fit-result
interface.) -/
structure AnalysisMeta where
  window : List (ℚ × ℚ)
  cvd : List ℚ
  price_slope : ℚ
  cvd_slope : ℚ
  divergence_type : DivergenceLabel
  periods_analyzed : ℕ

/-- Embedding of `calculate_accumulation_signal`: restrict to the last 90
rows, accumulate the volume deltas into the cvd series, fit both series
against position, and report the label and period count. -/
def calculate_accumulation_signal (rows : List (ℚ × ℚ)) : AnalysisMeta :=
  let w := tail90 rows
  let closes := w.map Prod.fst
  let cvd := cumsum (w.map Prod.snd)
  { window := w
    cvd := cvd
    price_slope := olsSlope closes
    cvd_slope := olsSlope cvd
    divergence_type := classify_divergence (olsSlope closes) (olsSlope cvd)
    periods_analyzed := w.length }

lemma cumsumGo_length : ∀ (xs : List ℚ) (a : ℚ),
    (cumsumGo a xs).length = xs.length
  | [], _ => rfl
  | x :: xs, a => by simp [cumsumGo, cumsumGo_length xs]

lemma cumsumGo_getD_succ : ∀ (xs : List ℚ) (a : ℚ) (i : ℕ),
    i + 1 < xs.length →
    (cumsumGo a xs).getD (i + 1) 0 =
      (cumsumGo a xs).getD i 0 + xs.getD (i + 1) 0 := by
  intro xs
  induction xs with
  | nil => intro a i h; simp at h
  | cons x xs ih =>
    intro a i h
    cases i with
    | zero =>
      cases xs with
      | nil => simp at h
      | cons y ys => simp [cumsumGo]
    | succ j =>
      simp only [cumsumGo, List.getD_cons_succ]
      exact ih (a + x) j (by simpa using h)

lemma cumsum_length (xs : List ℚ) : (cumsum xs).length = xs.length :=
  cumsumGo_length xs 0

lemma cumsum_getD_zero (xs : List ℚ) (h : 0 < xs.length) :
    (cumsum xs).getD 0 0 = xs.getD 0 0 := by
  cases xs with
  | nil => simp at h
  | cons x rest => simp [cumsum, cumsumGo]

lemma cumsum_getD_succ (xs : List ℚ) (i : ℕ) (h : i + 1 < xs.length) :
    (cumsum xs).getD (i + 1) 0 = (cumsum xs).getD i 0 + xs.getD (i + 1) 0 :=
  cumsumGo_getD_succ xs 0 i h

/-- Claim C9: on a validated series of at least 90 rows the TrendAnalyzer
uses exactly the most recent 90 rows in original order (the input is the
dropped prefix followed by the window), the cvd series is the running
cumulative sum of the window's volume deltas (cvd₀ equals the first delta
and each later entry adds the next delta to the previous entry), and
`periods_analyzed` is 90. -/
theorem trend_analyzer_window_cvd (rows : List (ℚ × ℚ))
    (h : 90 ≤ rows.length) :
    (calculate_accumulation_signal rows).periods_analyzed = 90 ∧
    (calculate_accumulation_signal rows).window.length = 90 ∧
    rows.take (rows.length - 90) ++ (calculate_accumulation_signal rows).window
      = rows ∧
    (calculate_accumulation_signal rows).cvd.length = 90 ∧
    (calculate_accumulation_signal rows).cvd.getD 0 0 =
      ((calculate_accumulation_signal rows).window.map Prod.snd).getD 0 0 ∧
    (∀ i, i + 1 < 90 →
      (calculate_accumulation_signal rows).cvd.getD (i + 1) 0 =
        (calculate_accumulation_signal rows).cvd.getD i 0 +
        ((calculate_accumulation_signal rows).window.map Prod.snd).getD
          (i + 1) 0) := by
  have hwin : (calculate_accumulation_signal rows).window = tail90 rows := rfl
  have hcvd : (calculate_accumulation_signal rows).cvd =
      cumsum ((tail90 rows).map Prod.snd) := rfl
  have hper : (calculate_accumulation_signal rows).periods_analyzed =
      (tail90 rows).length := rfl
  have hlen : (tail90 rows).length = 90 := by
    simp only [tail90, List.length_drop]
    omega
  have hmlen : ((tail90 rows).map Prod.snd).length = 90 := by
    simp [hlen]
  refine ⟨?_, ?_, ?_, ?_, ?_, ?_⟩
  · rw [hper, hlen]
  · rw [hwin, hlen]
  · rw [hwin]
    exact List.take_append_drop (rows.length - 90) rows
  · rw [hcvd, cumsum_length, hmlen]
  · rw [hcvd, hwin]
    exact cumsum_getD_zero _ (by rw [hmlen]; norm_num)
  · intro i hi
    rw [hcvd, hwin]
    exact cumsum_getD_succ _ i (by rw [hmlen]; exact hi)

/-- Witness for C9: a constant 90-row series satisfies the length bound and
the analyzer reports 90 periods. -/
theorem trend_analyzer_window_cvd_witness :
    (calculate_accumulation_signal
      (List.replicate 90 ((1 : ℚ), (1 : ℚ)))).periods_analyzed = 90 :=
  (trend_analyzer_window_cvd (List.replicate 90 ((1 : ℚ), (1 : ℚ)))
    (by simp)).1

/-- The CoinGecko market-data record consumed by `process_coingecko_data`. -/
structure MarketData where
  name : String
  symbol : String
  category : Option String
  market_cap : Option ℚ
  circulating_supply : Option ℚ
  total_supply : Option ℚ

/-- An automated project record as produced by the ingestion pipeline and
consumed by the UI card renderer. -/
structure AutoProject where
  name : String
  ticker : String
  market_cap : Option ℚ
  circulating_supply : Option ℚ
  total_supply : Option ℚ
  sector_strength : ℕ
  backing_team : ℚ
  value_proposition : ℚ
  valuation_potential : ℕ
  token_utility : ℚ
  supply_risk : ℕ
  narrative_score : ℚ
  tokenomics_score : ℚ
  data_score : Option ℚ
  omega_score : Option ℚ
  has_data_score : Bool

/-- Embedding of `process_coingecko_data`: automated sub-scores from the
metadata (the call site lower-cases the category; `calculate_sector_strength`
normalizes again, so the composition is unchanged), neutral defaults of 5,
falsiness guards on market cap and supplies, unrounded pillar means, and
null data/omega scores with the awaiting flag unset. -/
def process_coingecko_data (md : MarketData) : AutoProject :=
  let sector := calculate_sector_strength (md.category.getD "")
  let vp := valuation_from_market_cap md.market_cap
  let sr :=
    if truthyQ md.circulating_supply && truthyQ md.total_supply then
      calculate_supply_risk (md.circulating_supply.getD 0) md.total_supply
    else 1
  { name := md.name
    ticker := md.symbol.toUpper
    market_cap := md.market_cap
    circulating_supply := md.circulating_supply
    total_supply := md.total_supply
    sector_strength := sector
    backing_team := 5
    value_proposition := 5
    valuation_potential := vp
    token_utility := 5
    supply_risk := sr
    narrative_score := ((sector : ℚ) + 5 + 5) / 3
    tokenomics_score := ((vp : ℚ) + 5 + (sr : ℚ)) / 3
    data_score := none
    omega_score := none
    has_data_score := false }

/-- Modelled from the spec: the backend CSV-analysis success handler (the
ScoreAssembler transition of §4.8) is not under src/ — only its HTTP caller
is.  Per the spec, a successful analysis sets `data_score` to the data
signal, computes `omega_score = narrative×0.25 + tokenomics×0.25 +
data×0.50`, and marks the asset Complete; re-running it overwrites the same
fields without a further state change. -/
def applyAnalysis (p : AutoProject) (signal : ℚ) : AutoProject :=
  { p with
    data_score := some signal
    omega_score := some (p.narrative_score * 0.25 + p.tokenomics_score * 0.25 +
      signal * 0.50)
    has_data_score := true }

/-- Automated-project records reachable in the pipeline: a fresh ingestion,
followed by any number of successful analyses. -/
inductive ReachableAuto : AutoProject → Prop where
  | ingest (md : MarketData) : ReachableAuto (process_coingecko_data md)
  | reanalyze (p : AutoProject) (signal : ℚ) :
      ReachableAuto p → ReachableAuto (applyAnalysis p signal)

/-- What the project card shows in the omega-score slot
(`renderAutomatedProjectCard`): the explicit "N/A" / "Awaiting Data"
sentinel, or the stored omega value with the "Omega Score" label. -/
inductive OmegaCardDisplay where
  | awaitingSentinel
  | omegaValue (score : Option ℚ)
deriving DecidableEq, Repr

/-- Embedding of the card's omega-score display choice: awaiting projects
(`!project.has_data_score`) get the sentinel, never a number. -/
def omegaScoreDisplay (p : AutoProject) : OmegaCardDisplay :=
  if p.has_data_score then .omegaValue p.omega_score else .awaitingSentinel

/-- Claim C5: a freshly ingested automated asset has null data and omega
scores with the awaiting flag unset and renders the "N/A"/"Awaiting Data"
sentinel; on every reachable record the omega score is present exactly when
the state is Complete (`has_data_score = true`); and any awaiting record
renders the sentinel, never a numeric placeholder. -/
theorem omega_presence_iff_complete :
    (∀ md : MarketData,
      (process_coingecko_data md).data_score = none ∧
      (process_coingecko_data md).omega_score = none ∧
      (process_coingecko_data md).has_data_score = false ∧
      omegaScoreDisplay (process_coingecko_data md) = .awaitingSentinel) ∧
    (∀ p : AutoProject, ReachableAuto p →
      (p.omega_score.isSome = true ↔ p.has_data_score = true)) ∧
    (∀ p : AutoProject, p.has_data_score = false →
      omegaScoreDisplay p = .awaitingSentinel) := by
  refine ⟨fun md => ⟨rfl, rfl, rfl, rfl⟩, fun p hp => ?_, fun p hp => ?_⟩
  · induction hp with
    | ingest md => simp [process_coingecko_data]
    | reanalyze q signal _ _ => simp [applyAnalysis]
  · simp [omegaScoreDisplay, hp]

/-- Witness for C5: a concrete freshly ingested asset is reachable, and the
theorem's invariant instantiates to it (both sides false). -/
theorem omega_presence_iff_complete_witness :
    ((process_coingecko_data
        ⟨"Bitcoin", "btc", none, none, none, none⟩).omega_score.isSome = true ↔
      (process_coingecko_data
        ⟨"Bitcoin", "btc", none, none, none, none⟩).has_data_score = true) :=
  omega_presence_iff_complete.2.1 _
    (ReachableAuto.ingest ⟨"Bitcoin", "btc", none, none, none, none⟩)

end CryptoScreener
